import Mathlib

/-!
# Verification of the insurancify-pro document pipeline and search subsystem

Shallow embedding of `backend/src/pdf_parser.py`, `backend/src/search_engine.py`
and `backend/src/ingestion.py` (the parts the frozen claims are about), with
theorems settling each claim.

External libraries (pdfplumber, PyPDF2, sqlite3/FTS5) are modelled as
environment data supplied by the input: a `PdfDoc` records what each engine
would observe when opening the file (open failure, encryption flag, per-page
extraction results), and the search model records what the SQLite layer would
return or whether it raises.  The Python code's own logic — branching, error
handling, string processing — is translated directly.

Python floats only ever carry the literal `0.0` on every reachable path of the
parser (see `calculate_confidence_is_undefined` below), so `confidence` is
modelled as `ℚ`.
-/

namespace Insurancify

/-! ## Python string helpers

Python `str.strip()` and the regex classes `\s`, `\d`, `\w` (restricted to the
ASCII range, which covers every string the claims touch). -/

/-- Python whitespace class `\s` (ASCII): space, tab, newline, CR, VT, FF. -/
def isPySpace (c : Char) : Bool :=
  c = ' ' || c = '\t' || c = '\n' || c = '\r' || c = '\x0b' || c = '\x0c'

/-- Python word class `\w` (ASCII): letters, digits, underscore. -/
def isPyWord (c : Char) : Bool :=
  c.isAlphanum || c = '_'

/-- `str.strip()` on a character list: drop whitespace from both ends. -/
def stripChars (cs : List Char) : List Char :=
  ((cs.dropWhile isPySpace).reverse.dropWhile isPySpace).reverse

/-- `str.strip()`. -/
def pyStrip (s : String) : String :=
  ⟨stripChars s.data⟩

/-! ## Data model: `ParseResult` and the document environment -/

/-- The dict returned by `PDFParser.parse_pdf`:
`{metadata: dict, text: str, confidence: float, message: str}`.
Metadata is an association list; on every reachable path the parser only ever
stores string values (the sole returned metadata dicts are the error dicts). -/
structure ParseResult where
  metadata : List (String × String)
  text : String
  confidence : ℚ
  message : String
  deriving Repr, DecidableEq

/-- What the two extraction engines observe for one input file.

* `encrypted` — the document's encryption flag: `pdf.metadata.get('Encrypt')`
  is truthy for pdfplumber and `reader.is_encrypted` for PyPDF2 (both reflect
  the same underlying file property).
* `plumberOpenErr` / `pypdfOpenErr` — `some e` when opening/reading the file
  with that engine raises an exception whose `str()` is `e`.
* `plumberPages` / `pypdfPages` — per page, `none` when `page.extract_text()`
  raises (the code logs and skips the page), otherwise the extracted text. -/
structure PdfDoc where
  encrypted : Bool
  plumberOpenErr : Option String
  plumberPages : List (Option String)
  pypdfOpenErr : Option String
  pypdfPages : List (Option String)
  deriving Repr, DecidableEq

/-- `text_parts`: pages whose extraction succeeded with truthy (non-empty)
text — `if text: text_parts.append(text)`. -/
def truthyPageTexts (pages : List (Option String)) : List String :=
  pages.filterMap (fun p => match p with
    | none => none
    | some t => if t = "" then none else some t)

/-- `full_text = "\n".join(text_parts)` in `_parse_with_pdfplumber`. -/
def plumberFullText (d : PdfDoc) : String :=
  String.intercalate "\n" (truthyPageTexts d.plumberPages)

/-- `full_text = "\n\n".join(text_parts)` in `_parse_with_pypdf2`. -/
def pypdfFullText (d : PdfDoc) : String :=
  String.intercalate "\n\n" (truthyPageTexts d.pypdfPages)

/-! ## The parsing pipeline

`PDFParser._calculate_confidence` is called at `pdf_parser.py:182` and `:250`
but is defined nowhere in the repository, so reaching either call site raises
`AttributeError`, which the enclosing `try/except` of the engine converts into
an error result. -/

/-- `str(AttributeError)` raised by the calls to the undefined method. -/
def attrErrMsg : String :=
  "'PDFParser' object has no attribute '_calculate_confidence'"

/-- Events recorded while the pipeline runs, for the temporal claims:
which engine/stage was actually invoked. -/
inductive PipeEv
  | secondaryEngine
  | recognizer
  | scorer
  deriving Repr, DecidableEq

/-- Result dict for a password-protected PDF (both engines build the same
literal dict). -/
def passwordResult : ParseResult :=
  { metadata := [("error", "Password protected PDF")]
    text := ""
    confidence := 0
    message := "password-protected PDF" }

/-- Result dict for an image-only PDF (both engines build the same literal
dict). -/
def imageOnlyResult : ParseResult :=
  { metadata := [("error", "Image-only PDF")]
    text := ""
    confidence := 0
    message := "image-only PDF; OCR disabled" }

/-- The `except Exception as e:` handler shared by both engines and the
pipeline boundary: `{metadata: {error: str(e)}, text: "", confidence: 0.0,
message: prefix + str(e)}`. -/
def exceptionResult (pre e : String) : ParseResult :=
  { metadata := [("error", e)]
    text := ""
    confidence := 0
    message := pre ++ e }

/-- Body of `_parse_with_pdfplumber` up to its `except` handler, together with
the stages invoked.  `Except.error e` means an exception with message `e`
escapes to the handler.  On the non-terminal path `_extract_metadata` runs
(the recognizer event), and the subsequent `_calculate_confidence` call (the
scorer event) raises `AttributeError`; the metadata built there never escapes. -/
def plumberBody (d : PdfDoc) : Except String ParseResult × List PipeEv :=
  match d.plumberOpenErr with
  | some e => (.error e, [])
  | none =>
    if d.encrypted then (.ok passwordResult, [])
    else if pyStrip (plumberFullText d) = "" then (.ok imageOnlyResult, [])
    else (.error attrErrMsg, [.recognizer, .scorer])

/-- Body of `_parse_with_pypdf2` up to its `except` handler. -/
def pypdfBody (d : PdfDoc) : Except String ParseResult × List PipeEv :=
  match d.pypdfOpenErr with
  | some e => (.error e, [])
  | none =>
    if d.encrypted then (.ok passwordResult, [])
    else if pyStrip (pypdfFullText d) = "" then (.ok imageOnlyResult, [])
    else (.error attrErrMsg, [.recognizer, .scorer])

/-- An engine's `try/except` boundary. -/
def runEngine (b : Except String ParseResult) (pre : String) : ParseResult :=
  match b with
  | .ok r => r
  | .error e => exceptionResult pre e

/-- `_parse_with_pdfplumber`, instrumented with the invoked stages. -/
def parseWithPdfplumberT (d : PdfDoc) : ParseResult × List PipeEv :=
  ((runEngine (plumberBody d).1 "pdfplumber parsing failed: "), (plumberBody d).2)

/-- `_parse_with_pypdf2`, instrumented with the invoked stages. -/
def parseWithPypdf2T (d : PdfDoc) : ParseResult × List PipeEv :=
  ((runEngine (pypdfBody d).1 "PyPDF2 parsing failed: "), (pypdfBody d).2)

/-- `parse_pdf`, instrumented: try pdfplumber first; if its result has
confidence `> 0` return it, otherwise fall back to PyPDF2.  The surrounding
`try/except` of `parse_pdf` cannot fire because both engine calls catch their
own exceptions, so it is not represented by a separate wrapper. -/
def parsePdfT (d : PdfDoc) : ParseResult × List PipeEv :=
  let p := parseWithPdfplumberT d
  if p.1.confidence > 0 then p
  else
    let q := parseWithPypdf2T d
    (q.1, p.2 ++ PipeEv.secondaryEngine :: q.2)

/-- `PDFParser.parse_pdf`. -/
def parse_pdf (d : PdfDoc) : ParseResult :=
  (parsePdfT d).1

/-- Whether the returned metadata dict has an `"error"` key. -/
def hasErrorKey (r : ParseResult) : Bool :=
  r.metadata.any (fun p => p.1 = "error")

/-! ### Basic facts about the pipeline -/

/-- Every result the pdfplumber engine can return has confidence `0.0`:
the only branch that would produce a nonzero confidence calls the undefined
`_calculate_confidence` and is converted into an error result. -/
theorem plumber_confidence_zero (d : PdfDoc) :
    (parseWithPdfplumberT d).1.confidence = 0 := by
  unfold parseWithPdfplumberT plumberBody
  cases h : d.plumberOpenErr
  · by_cases he : d.encrypted
    · simp [he, runEngine, passwordResult]
    · by_cases ht : pyStrip (plumberFullText d) = ""
      · simp [he, ht, runEngine, imageOnlyResult]
      · simp [he, ht, runEngine, exceptionResult]
  · simp [runEngine, exceptionResult]

/-- Every result the PyPDF2 engine can return has confidence `0.0`. -/
theorem pypdf_confidence_zero (d : PdfDoc) :
    (parseWithPypdf2T d).1.confidence = 0 := by
  unfold parseWithPypdf2T pypdfBody
  cases h : d.pypdfOpenErr
  · by_cases he : d.encrypted
    · simp [he, runEngine, passwordResult]
    · by_cases ht : pyStrip (pypdfFullText d) = ""
      · simp [he, ht, runEngine, imageOnlyResult]
      · simp [he, ht, runEngine, exceptionResult]
  · simp [runEngine, exceptionResult]

/-- Since the primary engine always reports confidence `0.0`, `parse_pdf`
always falls through to and returns the PyPDF2 result. -/
theorem parse_pdf_eq_pypdf (d : PdfDoc) :
    parse_pdf d = (parseWithPypdf2T d).1 := by
  unfold parse_pdf parsePdfT
  simp [plumber_confidence_zero d]

/-- Every result the PyPDF2 engine can return carries an `"error"` metadata
key (password dict, image-only dict, or exception dict). -/
theorem pypdf_hasErrorKey (d : PdfDoc) :
    hasErrorKey (parseWithPypdf2T d).1 = true := by
  unfold parseWithPypdf2T pypdfBody
  cases h : d.pypdfOpenErr
  · by_cases he : d.encrypted
    · simp [he, runEngine, passwordResult, hasErrorKey]
    · by_cases ht : pyStrip (pypdfFullText d) = ""
      · simp [he, ht, runEngine, imageOnlyResult, hasErrorKey]
      · simp [he, ht, runEngine, exceptionResult, hasErrorKey]
  · simp [runEngine, exceptionResult, hasErrorKey]

/-- Every result the PyPDF2 engine can return has empty `text`: the only
branch that would return extracted text dies in the `_calculate_confidence`
call, and all error/terminal dicts carry `"text": ""`. -/
theorem pypdf_text_empty (d : PdfDoc) :
    (parseWithPypdf2T d).1.text = "" := by
  unfold parseWithPypdf2T pypdfBody
  cases h : d.pypdfOpenErr
  · by_cases he : d.encrypted
    · simp [he, runEngine, passwordResult]
    · by_cases ht : pyStrip (pypdfFullText d) = ""
      · simp [he, ht, runEngine, imageOnlyResult]
      · simp [he, ht, runEngine, exceptionResult]
  · simp [runEngine, exceptionResult]

/-- The pipeline trace always consists of the primary engine's stages, then
the fallback marker, then the secondary engine's stages, because the primary
result's confidence is always `0`. -/
theorem parsePdfT_trace (d : PdfDoc) :
    (parsePdfT d).2 = (plumberBody d).2 ++ PipeEv.secondaryEngine :: (pypdfBody d).2 := by
  have h : (runEngine (plumberBody d).1 "pdfplumber parsing failed: ").confidence = 0 :=
    plumber_confidence_zero d
  unfold parsePdfT parseWithPdfplumberT parseWithPypdf2T
  simp [h]

/-- On a terminal document the pdfplumber body never reaches the recognizer:
its stage trace is empty. -/
theorem plumber_trace_nil_of_terminal (d : PdfDoc)
    (h : d.encrypted = true ∨ pyStrip (plumberFullText d) = "") :
    (plumberBody d).2 = [] := by
  unfold plumberBody
  cases ho : d.plumberOpenErr
  · rcases h with he | ht
    · simp [he]
    · by_cases he : d.encrypted <;> simp [he, ht]
  · simp

/-- On a terminal document the PyPDF2 body never reaches the recognizer:
its stage trace is empty. -/
theorem pypdf_trace_nil_of_terminal (d : PdfDoc)
    (h : d.encrypted = true ∨ pyStrip (pypdfFullText d) = "") :
    (pypdfBody d).2 = [] := by
  unfold pypdfBody
  cases ho : d.pypdfOpenErr
  · rcases h with he | ht
    · simp [he]
    · by_cases he : d.encrypted <;> simp [he, ht]
  · simp

/-- When PyPDF2 opens the file and the encryption flag is set, the engine
returns the literal password-protected dict. -/
theorem pypdf_encrypted_result (d : PdfDoc)
    (he : d.encrypted = true) (ho : d.pypdfOpenErr = none) :
    (parseWithPypdf2T d).1 = passwordResult := by
  unfold parseWithPypdf2T pypdfBody
  simp [he, ho, runEngine]

/-! ## Claim theorems for the parsing pipeline -/

/-- A document whose primary-engine extraction succeeds with non-empty text:
not encrypted, opens fine, one page of policy text. -/
def successDoc : PdfDoc :=
  { encrypted := false
    plumberOpenErr := none
    plumberPages := [some "Policy Number: GL-2024-001 General Liability"]
    pypdfOpenErr := none
    pypdfPages := [some "Policy Number: GL-2024-001 General Liability"] }

/-- C1: for every input whose primary-engine extraction is not encrypted and
yields non-empty text, `parse_pdf` still returns confidence `0.0` with an
`error` key in the metadata (the `_calculate_confidence` call raises
`AttributeError`, caught by each engine's handler), and `parse_pdf` never
returns a result with confidence `> 0.0` for any input. -/
theorem parse_pdf_success_path_zero_confidence (d : PdfDoc) :
    (parse_pdf d).confidence = 0 ∧
    (d.encrypted = false → d.plumberOpenErr = none →
      pyStrip (plumberFullText d) ≠ "" →
      hasErrorKey (parse_pdf d) = true) := by
  constructor
  · rw [parse_pdf_eq_pypdf]; exact pypdf_confidence_zero d
  · intro _ _ _
    rw [parse_pdf_eq_pypdf]; exact pypdf_hasErrorKey d

/-- Witness for C1 at a concrete document with successfully extracted text. -/
theorem parse_pdf_success_path_zero_confidence_witness :
    (parse_pdf successDoc).confidence = 0 ∧
    hasErrorKey (parse_pdf successDoc) = true :=
  ⟨(parse_pdf_success_path_zero_confidence successDoc).1,
   (parse_pdf_success_path_zero_confidence successDoc).2 rfl rfl (by decide)⟩

/-- The 1001-character text a parser implementing the spec's confidence
formula would score `min(1.0, 1001/1000) = 1.0`. -/
def longText : String := ⟨List.replicate 1001 'a'⟩

/-- A document whose primary-engine extraction yields 1001 characters. -/
def longDoc : PdfDoc :=
  { encrypted := false
    plumberOpenErr := none
    plumberPages := [some longText]
    pypdfOpenErr := none
    pypdfPages := [some longText] }

/-- When PyPDF2 opens a non-encrypted file and extraction yields text that
does not strip to empty, the `_calculate_confidence` call raises and the
engine returns the `AttributeError` result. -/
theorem pypdf_attr_error (d : PdfDoc) (ho : d.pypdfOpenErr = none)
    (he : d.encrypted = false) (ht : pyStrip (pypdfFullText d) ≠ "") :
    (parseWithPypdf2T d).1 = exceptionResult "PyPDF2 parsing failed: " attrErrMsg := by
  unfold parseWithPypdf2T pypdfBody
  rw [ho]
  simp [he, ht, runEngine]

set_option maxRecDepth 100000 in
/-- C2: the spec's confidence formula (`min(1.0, L/1000)` for `L > 50`, hence
`1.0` for `L > 1000`) is never computed by the code: at a document with 1001
extractable characters, `parse_pdf` returns confidence `0.0` with the
`AttributeError` of the undefined `_calculate_confidence` in the metadata,
not confidence `1.0`. -/
theorem confidence_formula_never_computed :
    (plumberFullText longDoc).length = 1001 ∧
    longDoc.encrypted = false ∧
    (parse_pdf longDoc).confidence = 0 ∧
    (parse_pdf longDoc).confidence ≠ 1 ∧
    (parse_pdf longDoc).metadata = [("error", attrErrMsg)] := by
  have hplumber : plumberFullText longDoc = longText := rfl
  have hpypdf : pypdfFullText longDoc = longText := rfl
  have hstrip : pyStrip longText = longText := rfl
  have hne : longText ≠ "" := by
    intro h
    have := congrArg String.length h
    simp [longText, String.length] at this
  have htfull : pyStrip (pypdfFullText longDoc) ≠ "" := by
    rw [hpypdf, hstrip]; exact hne
  refine ⟨?_, rfl, ?_, ?_, ?_⟩
  · rw [hplumber]; simp [longText, String.length]
  · rw [parse_pdf_eq_pypdf]; exact pypdf_confidence_zero longDoc
  · rw [parse_pdf_eq_pypdf, pypdf_confidence_zero longDoc]; norm_num
  · rw [parse_pdf_eq_pypdf, pypdf_attr_error longDoc rfl rfl htfull]
    rfl

/-- C4: whenever the document's encryption flag is detected (the flag is set
and the fallback engine can open the file to check it), `parse_pdf` returns
confidence `0.0`, empty text, and the password-protection message, regardless
of the document's page contents. -/
theorem parse_pdf_encrypted (d : PdfDoc)
    (he : d.encrypted = true) (ho : d.pypdfOpenErr = none) :
    (parse_pdf d).confidence = 0 ∧
    (parse_pdf d).text = "" ∧
    (parse_pdf d).message = "password-protected PDF" := by
  rw [parse_pdf_eq_pypdf, pypdf_encrypted_result d he ho]
  exact ⟨rfl, rfl, rfl⟩

/-- A concrete encrypted document that also contains recognizable text. -/
def encryptedDoc : PdfDoc :=
  { encrypted := true
    plumberOpenErr := none
    plumberPages := [some "Policy Number: GL-2024-001 General Liability"]
    pypdfOpenErr := none
    pypdfPages := [some "Policy Number: GL-2024-001 General Liability"] }

/-- Witness for C4 at a concrete encrypted document. -/
theorem parse_pdf_encrypted_witness :
    (parse_pdf encryptedDoc).confidence = 0 ∧
    (parse_pdf encryptedDoc).text = "" ∧
    (parse_pdf encryptedDoc).message = "password-protected PDF" :=
  parse_pdf_encrypted encryptedDoc rfl rfl

/-- C5 counterexample: on an encrypted document the pipeline does NOT return
immediately after the primary engine's password-protected result — the
password result has confidence `0.0`, so `parse_pdf` falls through and the
secondary engine IS tried. -/
theorem secondary_engine_tried_on_encrypted :
    PipeEv.secondaryEngine ∈ (parsePdfT encryptedDoc).2 := by decide

/-- C5 amended: on a terminal document (encrypted, or image-only for both
engines) the secondary engine is still tried, but the field recognizer and
the confidence scorer are never invoked, and the result has zero confidence
and empty text. -/
theorem terminal_never_runs_recognizer (d : PdfDoc)
    (h : d.encrypted = true ∨
      (pyStrip (plumberFullText d) = "" ∧ pyStrip (pypdfFullText d) = "")) :
    PipeEv.recognizer ∉ (parsePdfT d).2 ∧
    PipeEv.scorer ∉ (parsePdfT d).2 ∧
    (parse_pdf d).confidence = 0 ∧
    (parse_pdf d).text = "" := by
  have hp : (plumberBody d).2 = [] :=
    plumber_trace_nil_of_terminal d (h.imp id And.left)
  have hq : (pypdfBody d).2 = [] :=
    pypdf_trace_nil_of_terminal d (h.imp id And.right)
  rw [parsePdfT_trace d, hp, hq]
  refine ⟨by simp, by simp, ?_, ?_⟩
  · rw [parse_pdf_eq_pypdf]; exact pypdf_confidence_zero d
  · rw [parse_pdf_eq_pypdf]; exact pypdf_text_empty d

/-- Witness for the amended C5 at a concrete encrypted document. -/
theorem terminal_never_runs_recognizer_witness :
    PipeEv.recognizer ∉ (parsePdfT encryptedDoc).2 ∧
    PipeEv.scorer ∉ (parsePdfT encryptedDoc).2 ∧
    (parse_pdf encryptedDoc).confidence = 0 ∧
    (parse_pdf encryptedDoc).text = "" :=
  terminal_never_runs_recognizer encryptedDoc (Or.inl rfl)

/-- C6: `parse_pdf` is a total function of the document (no exception
escapes), and whenever the stage that produces the returned result raises an
exception `e` — open failure or the `AttributeError` from the undefined
confidence scorer — the result has confidence `0.0`, metadata exactly
`{error: e}`, and a message embedding `e`.  Per-page extraction exceptions
are caught and skipped locally by design (spec §7) and so never reach the
pipeline boundary. -/
theorem parse_pdf_converts_exceptions (d : PdfDoc) (e : String)
    (h : (pypdfBody d).1 = .error e) :
    (parse_pdf d).confidence = 0 ∧
    (parse_pdf d).metadata = [("error", e)] ∧
    (parse_pdf d).message = "PyPDF2 parsing failed: " ++ e := by
  rw [parse_pdf_eq_pypdf]
  unfold parseWithPypdf2T
  rw [h]
  exact ⟨rfl, rfl, rfl⟩

/-- A document on which both engines fail to open the file. -/
def unreadableDoc : PdfDoc :=
  { encrypted := false
    plumberOpenErr := some "No /Root object! - Is this really a PDF?"
    plumberPages := []
    pypdfOpenErr := some "EOF marker not found"
    pypdfPages := [] }

/-- Witness for C6 at a concrete document whose opening raises. -/
theorem parse_pdf_converts_exceptions_witness :
    (parse_pdf unreadableDoc).confidence = 0 ∧
    (parse_pdf unreadableDoc).metadata = [("error", "EOF marker not found")] ∧
    (parse_pdf unreadableDoc).message =
      "PyPDF2 parsing failed: " ++ "EOF marker not found" :=
  parse_pdf_converts_exceptions unreadableDoc "EOF marker not found" rfl

/-! ## Search engine: `backend/src/search_engine.py`

The SQLite layer is an external collaborator: a connection either performs
the statement or raises.  The FTS5 virtual table itself is modelled as a list
of rows with an auto-assigned rowid, which is the only key SQLite enforces
uniqueness on (FTS5 ordinary columns, `document_id` included, carry no UNIQUE
constraint). -/

/-- `re.sub(r'\s+', ' ', text)`: every maximal whitespace run becomes one
space. -/
def collapseWs : List Char → List Char
  | [] => []
  | [c] => if isPySpace c then [' '] else [c]
  | c1 :: c2 :: rest =>
    if isPySpace c1 && isPySpace c2 then collapseWs (c2 :: rest)
    else if isPySpace c1 then ' ' :: collapseWs (c2 :: rest)
    else c1 :: collapseWs (c2 :: rest)

/-- The character class kept by `re.sub(r'[^\w\s\-.,]', ' ', text)`. -/
def isAllowedFts (c : Char) : Bool :=
  isPyWord c || isPySpace c || c = '-' || c = '.' || c = ','

/-- `re.sub(r'[^\w\s\-.,]', ' ', text)`: characters outside the class are
replaced by a space (not removed). -/
def substituteNonFts (cs : List Char) : List Char :=
  cs.map (fun c => if isAllowedFts c then c else ' ')

/-- `if len(text) > 50000: text = text[:50000] + "..."`. -/
def truncateFts (cs : List Char) : List Char :=
  if cs.length > 50000 then cs.take 50000 ++ ['.', '.', '.'] else cs

/-- `SearchEngine._clean_text_for_indexing`. -/
def cleanTextForIndexing (s : String) : String :=
  if s = "" then ""
  else ⟨stripChars (truncateFts (substituteNonFts (collapseWs s.data)))⟩

/-- One row of the `document_search` FTS5 virtual table, with its SQLite
rowid. -/
structure FtsRow where
  rowid : Nat
  document_id : Int
  title : String
  content : String
  metadataBlob : String
  carrier : String
  policy_number : String
  coverage_type : String
  deriving Repr, DecidableEq

/-- The `document_search` table: rows plus the next rowid SQLite would
auto-assign. -/
structure FtsTable where
  rows : List FtsRow
  nextRowid : Nat
  deriving Repr, DecidableEq

def emptyFtsTable : FtsTable := ⟨[], 1⟩

/-- `metadata.get(key, "")` on the string-valued metadata dict. -/
def dictGetD (md : List (String × String)) (k : String) : String :=
  ((md.find? (fun p => p.1 = k)).map (fun p => p.2)).getD ""

/-- `str(metadata)` as stored into the `metadata` column.  Python renders a
string-valued dict as `{'k': 'v', ...}`; the exact repr never matters to any
claim, only that some blob string is stored. -/
def pyDictStr (md : List (String × String)) : String :=
  let q := (Char.ofNat 39).toString
  "\x7b" ++ String.intercalate ", "
    (md.map (fun p => q ++ p.1 ++ q ++ ": " ++ q ++ p.2 ++ q)) ++ "\x7d"

/-- `SearchEngine.index_document` (the successful, non-raising path).

The statement is `INSERT OR REPLACE INTO document_search (document_id, title,
content, metadata, carrier, policy_number, coverage_type) VALUES (...)`.  No
rowid is supplied, so SQLite assigns a fresh one; since an FTS5 table has no
UNIQUE constraint on its ordinary columns, the REPLACE conflict resolution
never fires and the statement appends a new row even when a row with the same
`document_id` already exists. -/
def index_document (t : FtsTable) (document_id : Int) (content : String)
    (metadata : Option (List (String × String))) : FtsTable :=
  let title := match metadata with | some md => dictGetD md "file_name" | none => ""
  let carrier := match metadata with | some md => dictGetD md "carrier" | none => ""
  let policy_number :=
    match metadata with | some md => dictGetD md "policy_number" | none => ""
  let coverage_type :=
    match metadata with | some md => dictGetD md "coverage_type" | none => ""
  let metadata_text := match metadata with | some md => pyDictStr md | none => ""
  let clean_content := cleanTextForIndexing content
  { rows := t.rows ++
      [{ rowid := t.nextRowid
         document_id := document_id
         title := title
         content := clean_content
         metadataBlob := metadata_text
         carrier := carrier
         policy_number := policy_number
         coverage_type := coverage_type }]
    nextRowid := t.nextRowid + 1 }

/-- `SearchEngine.index_document` including its `try/except`: a database
failure (`some e`) is logged and re-raised (`search_engine.py:85-87`). -/
def index_document_op (dbFail : Option String) (t : FtsTable) (document_id : Int)
    (content : String) (metadata : Option (List (String × String))) :
    Except String FtsTable :=
  match dbFail with
  | some e => .error e
  | none => .ok (index_document t document_id content metadata)

/-- One entry of `SearchEngine.search`'s result list. -/
structure SearchResult where
  document_id : Int
  title : String
  carrier : String
  policy_number : String
  coverage_type : String
  score : ℚ
  snippet : String
  deriving Repr, DecidableEq

/-- What the SQLite layer does for one `search` call: either every statement
raises (`dbFail = some e`), or the `MATCH ... ORDER BY bm25` query returns
`matchRows` (row, bm25 score, snippet), already ranked — the ranking itself
is SQLite's, an external collaborator. -/
structure SqliteEnv where
  dbFail : Option String
  matchRows : List (FtsRow × ℚ × String)
  deriving Repr, DecidableEq

/-- `SearchEngine.search`: builds result dicts from the ranked rows with
`LIMIT ? OFFSET ?`; on any exception it logs and returns the empty list
(`search_engine.py:138-140`), indistinguishable from a no-match result. -/
def search (env : SqliteEnv) (limit offset : Nat) : List SearchResult :=
  match env.dbFail with
  | some _ => []
  | none =>
    ((env.matchRows.drop offset).take limit).map
      (fun rs => { document_id := rs.1.document_id
                   title := rs.1.title
                   carrier := rs.1.carrier
                   policy_number := rs.1.policy_number
                   coverage_type := rs.1.coverage_type
                   score := rs.2.1
                   snippet := rs.2.2 })

/-- Outcome of the body of `FileIngestionService._update_search_index`. -/
inductive IndexUpdateOutcome
  | skipped
  | inserted
  deriving Repr, DecidableEq

/-- Body of `FileIngestionService._update_search_index` up to its `except`:
returns early when the file has no policy id or no parsed text, otherwise
runs DB queries and the `INSERT INTO policy_search` statement, any of which
may raise. -/
def updateSearchIndexBody (dbFail : Option String) (policyId : Option Nat)
    (parsedText : String) : Except String IndexUpdateOutcome :=
  if policyId = none ∨ parsedText = "" then .ok .skipped
  else
    match dbFail with
    | some e => .error e
    | none => .ok .inserted

/-- `FileIngestionService._update_search_index` as its caller sees it: the
`except Exception` handler only logs (`ingestion.py:212-213`), so the method
returns normally whether or not the index write succeeded. -/
def updateSearchIndex (dbFail : Option String) (policyId : Option Nat)
    (parsedText : String) : Except String Unit :=
  match updateSearchIndexBody dbFail policyId parsedText with
  | .ok _ => .ok ()
  | .error _ => .ok ()

/-! ## Claim theorems for the search subsystem -/

/-- The table after `index_document(42, "first content")` followed by
`index_document(42, "second content")`. -/
def twiceIndexedTable : FtsTable :=
  index_document (index_document emptyFtsTable 42 "first content" none)
    42 "second content" none

/-- C3: after indexing the same `document_id` twice, the FTS5 table holds TWO
entries for that id — the first call's content is still present — because
`INSERT OR REPLACE` without a rowid appends rather than replaces. -/
theorem index_document_appends_duplicate :
    (twiceIndexedTable.rows.filter (fun r => r.document_id = 42)).length = 2 ∧
    twiceIndexedTable.rows.map (fun r => r.content) =
      ["first content", "second content"] := by decide

/-- The cleaning function the C7 claim describes: collapse whitespace runs,
REMOVE characters outside word/space/hyphen/comma/period, truncate to at most
50,000 characters. -/
def cleanPerClaim (s : String) : String :=
  ⟨((collapseWs s.data).filter isAllowedFts).take 50000⟩

/-- C7 counterexample: `_clean_text_for_indexing` replaces a disallowed
character by a space instead of removing it, so on `"a!b"` the stored content
is `"a b"`, not the `"ab"` the claim describes. -/
theorem clean_text_substitutes_not_removes :
    cleanTextForIndexing "a!b" = "a b" ∧
    cleanPerClaim "a!b" = "ab" ∧
    cleanTextForIndexing "a!b" ≠ cleanPerClaim "a!b" := by decide

/-- `stripChars` only drops characters from the ends. -/
theorem stripChars_sublist (cs : List Char) : List.Sublist (stripChars cs) cs := by
  unfold stripChars
  have h1 : List.Sublist (cs.dropWhile isPySpace) cs := List.dropWhile_sublist _
  have h2 : List.Sublist ((cs.dropWhile isPySpace).reverse.dropWhile isPySpace)
      (cs.dropWhile isPySpace).reverse := List.dropWhile_sublist _
  have h3 := h2.reverse
  simp only [List.reverse_reverse] at h3
  exact h3.trans h1

/-- The truncation step caps the length at 50,000 plus the three-character
ellipsis. -/
theorem length_truncateFts_le (cs : List Char) :
    (truncateFts cs).length ≤ 50003 := by
  unfold truncateFts
  split
  · simp only [List.length_append, List.length_take, List.length_cons,
      List.length_nil]
    omega
  · omega

/-- Characters surviving truncation come from the input or the ellipsis. -/
theorem mem_truncateFts {c : Char} {cs : List Char} (h : c ∈ truncateFts cs) :
    c ∈ cs ∨ c = '.' := by
  unfold truncateFts at h
  split at h
  · rcases List.mem_append.mp h with h1 | h1
    · exact Or.inl (List.mem_of_mem_take h1)
    · right; simpa using h1
  · exact Or.inl h

/-- Every character the substitution step emits is in the allowed class. -/
theorem mem_substituteNonFts {c : Char} {cs : List Char}
    (h : c ∈ substituteNonFts cs) : isAllowedFts c = true := by
  unfold substituteNonFts at h
  rcases List.mem_map.mp h with ⟨a, _, rfl⟩
  by_cases ha : isAllowedFts a = true
  · rwa [if_pos ha]
  · rw [if_neg ha]; rfl

/-- C7 amended: the stored content is the input with whitespace runs
collapsed, disallowed characters replaced by spaces, truncated at 50,000
characters with an appended `"..."` when longer, then stripped — hence at
most 50,003 characters long and made only of word/space/hyphen/comma/period
characters. -/
theorem clean_text_bounded_sanitized (s : String) :
    (cleanTextForIndexing s).length ≤ 50003 ∧
    ∀ c ∈ (cleanTextForIndexing s).data, isAllowedFts c = true := by
  unfold cleanTextForIndexing
  by_cases h : s = ""
  · simp [h, String.length]
  · simp only [h, if_false]
    constructor
    · show (stripChars (truncateFts (substituteNonFts (collapseWs s.data)))).length ≤ 50003
      exact le_trans (stripChars_sublist _).length_le (length_truncateFts_le _)
    · intro c hc
      have h1 : c ∈ truncateFts (substituteNonFts (collapseWs s.data)) :=
        (stripChars_sublist _).subset hc
      rcases mem_truncateFts h1 with h2 | h2
      · exact mem_substituteNonFts h2
      · subst h2; rfl

/-- Witness for the amended C7 at a concrete input and character. -/
theorem clean_text_bounded_sanitized_witness :
    (cleanTextForIndexing "ab").length ≤ 50003 ∧ isAllowedFts 'a' = true :=
  ⟨(clean_text_bounded_sanitized "ab").1,
   (clean_text_bounded_sanitized "ab").2 'a' (by decide)⟩

/-- A concrete indexed row with its bm25 score and snippet as SQLite would
rank it. -/
def sampleScoredRow : FtsRow × ℚ × String :=
  ({ rowid := 1
     document_id := 7
     title := "policy.pdf"
     content := "Acme Insurance policy text"
     metadataBlob := ""
     carrier := "Acme"
     policy_number := "GL-2024-001"
     coverage_type := "general-liability" },
   -1, "<b>Acme</b> Insurance policy text")

/-- C8 counterexample: a failing `search` call returns `[]` — the very value
a successful no-match query returns — and a failing ingestion-side index
write returns normally, so neither failure reaches the caller as a failed
operation result. -/
theorem search_failure_indistinguishable :
    search ⟨some "database is locked", [sampleScoredRow]⟩ 50 0 = [] ∧
    search ⟨none, []⟩ 50 0 = [] ∧
    search ⟨none, [sampleScoredRow]⟩ 50 0 ≠ [] ∧
    updateSearchIndex (some "database is locked") (some 7) "Policy text" =
      .ok () :=
  ⟨rfl, rfl, by decide, rfl⟩

/-- C8 amended: `SearchEngine.index_document` re-raises database failures to
its caller, but `SearchEngine.search` swallows query failures into an empty
result list and `FileIngestionService._update_search_index` swallows index
write failures and returns normally, so those two failures are undetectable
by the caller. -/
theorem index_write_raises_but_query_and_ingestion_swallow
    (e : String) (t : FtsTable) (id : Int) (content : String)
    (md : Option (List (String × String))) (rows : List (FtsRow × ℚ × String))
    (lim off : Nat) (pid : Option Nat) (txt : String) :
    index_document_op (some e) t id content md = .error e ∧
    search ⟨some e, rows⟩ lim off = [] ∧
    updateSearchIndex (some e) pid txt = .ok () := by
  refine ⟨rfl, rfl, ?_⟩
  unfold updateSearchIndex updateSearchIndexBody
  by_cases hc : pid = none ∨ txt = "" <;> simp [hc]

/-! ## Date normalizer: `PDFParser._parse_date`

The five regex patterns are embedded as explicit matchers.  Greedy
quantifiers with the continuation-style `tryLens` try the longer digit count
first and backtrack; `\w+` and `\s+` runs are taken maximally, which agrees
with regex backtracking because in every pattern the atom following the run
is disjoint from the run's character class.  `strptime` validation (month
range, day-of-month including leap years, the `%y` century window 00-68 →
2000s / 69-99 → 1900s) is applied to the captured groups exactly where the
code calls `datetime.strptime`; a `ValueError` there makes the code fall
through to the next pattern. -/

/-- `{"raw": ..., "iso": ...}` returned by `_parse_date`. -/
structure NormalizedDate where
  raw : Option String
  iso : Option String
  deriving Repr, DecidableEq

/-- Take exactly `n` characters satisfying `p` from the front. -/
def takeCount (p : Char → Bool) : Nat → List Char → Option (List Char × List Char)
  | 0, cs => some ([], cs)
  | _ + 1, [] => none
  | n + 1, c :: cs =>
    if p c then (takeCount p n cs).map (fun pr => (c :: pr.1, pr.2)) else none

/-- Greedy bounded quantifier with backtracking: try the candidate group
lengths in order (longest first, as `\d{1,2}` does) and run the continuation
on each until one succeeds. -/
def tryLens {α : Type} (p : Char → Bool) (lens : List Nat) (cs : List Char)
    (k : List Char → List Char → Option α) : Option α :=
  match lens with
  | [] => none
  | n :: ns =>
    match takeCount p n cs with
    | some (g, rest) =>
      match k g rest with
      | some r => some r
      | none => tryLens p ns cs k
    | none => tryLens p ns cs k

/-- The separator class `[\/\-]`. -/
def sepSlashDash {α : Type} (cs : List Char) (k : List Char → Option α) : Option α :=
  match cs with
  | c :: rest => if c = '/' || c = '-' then k rest else none
  | [] => none

/-- `re.search`: try the pattern at each position left to right. -/
def searchA {α : Type} (matchAt : List Char → Option α) : List Char → Option α
  | [] => matchAt []
  | c :: t =>
    match matchAt (c :: t) with
    | some r => some r
    | none => searchA matchAt t

/-- Match `(\d{a})[\/\-](\d{b})[\/\-](\d{c})` at the current position, with
`l1 l2 l3` the candidate lengths of each group. -/
def matchNumericDate (l1 l2 l3 : List Nat) (cs : List Char) :
    Option (List Char × List Char × List Char) :=
  tryLens Char.isDigit l1 cs (fun g1 r1 =>
    sepSlashDash r1 (fun r2 =>
      tryLens Char.isDigit l2 r2 (fun g2 r3 =>
        sepSlashDash r3 (fun r4 =>
          tryLens Char.isDigit l3 r4 (fun g3 _ => some (g1, g2, g3))))))

/-- Maximal run of characters satisfying `p`. -/
def takeRun (p : Char → Bool) (cs : List Char) : List Char × List Char :=
  (cs.takeWhile p, cs.dropWhile p)

/-- Match `(\w+)\s+(\d{1,2}),?\s+(\d{4})` at the current position, returning
the word, the day digits, whether the optional comma was present, and the
year digits (enough to reconstruct `match.group(0)`). -/
def matchMonthDayYear (cs : List Char) :
    Option (List Char × List Char × Bool × List Char) :=
  match takeRun isPyWord cs with
  | ([], _) => none
  | (w, r1) =>
    match takeRun isPySpace r1 with
    | ([], _) => none
    | (_, r2) =>
      tryLens Char.isDigit [2, 1] r2 (fun day r3 =>
        let commaRest : Bool × List Char :=
          match r3 with
          | ',' :: t => (true, t)
          | _ => (false, r3)
        match takeRun isPySpace commaRest.2 with
        | ([], _) => none
        | (_, r5) =>
          tryLens Char.isDigit [4] r5 (fun yr _ => some (w, day, commaRest.1, yr)))

/-- Match `(\d{1,2})\s+(\w+)\s+(\d{4})` at the current position. -/
def matchDayMonthYear (cs : List Char) :
    Option (List Char × List Char × List Char) :=
  tryLens Char.isDigit [2, 1] cs (fun day r1 =>
    match takeRun isPySpace r1 with
    | ([], _) => none
    | (_, r2) =>
      match takeRun isPyWord r2 with
      | ([], _) => none
      | (w, r3) =>
        match takeRun isPySpace r3 with
        | ([], _) => none
        | (_, r4) =>
          tryLens Char.isDigit [4] r4 (fun yr _ => some (day, w, yr)))

/-- Gregorian leap year, as `datetime` uses. -/
def isLeapYear (y : Nat) : Bool :=
  y % 4 = 0 && (y % 100 ≠ 0 || y % 400 = 0)

def daysInMonth (y m : Nat) : Nat :=
  if m = 2 then (if isLeapYear y then 29 else 28)
  else if m = 4 || m = 6 || m = 9 || m = 11 then 30
  else 31

/-- The dates `datetime(year, month, day)` accepts. -/
def validDate (y m d : Nat) : Bool :=
  1 ≤ y && y ≤ 9999 && 1 ≤ m && m ≤ 12 && 1 ≤ d && d ≤ daysInMonth y m

def digitsToNat (cs : List Char) : Nat :=
  cs.foldl (fun n c => n * 10 + (c.toNat - 48)) 0

/-- `datetime.strptime`'s `%y` century window: 00-68 → 2000s, 69-99 → 1900s. -/
def expandTwoDigitYear (y : Nat) : Nat :=
  if y ≤ 68 then 2000 + y else 1900 + y

/-- Zero-padded decimal rendering, as `strftime("%Y-%m-%d")` pads fields. -/
def padNum (width n : Nat) : String :=
  let s := toString n
  ⟨List.replicate (width - s.length) '0'⟩ ++ s

/-- `date_obj.strftime("%Y-%m-%d")`. -/
def isoFormat (y m d : Nat) : String :=
  padNum 4 y ++ "-" ++ padNum 2 m ++ "-" ++ padNum 2 d

/-- Full month names recognized by `%B` (matched case-insensitively). -/
def monthNames : List (String × Nat) :=
  [("january", 1), ("february", 2), ("march", 3), ("april", 4), ("may", 5),
   ("june", 6), ("july", 7), ("august", 8), ("september", 9), ("october", 10),
   ("november", 11), ("december", 12)]

def lowerChars (cs : List Char) : List Char := cs.map Char.toLower

/-- `%B`: the whole captured word must be a full month name. -/
def monthFromName (w : List Char) : Option Nat :=
  (monthNames.find? (fun p => p.1.data = lowerChars w)).map (fun p => p.2)

/-- Pattern 1: `(\d{1,2})[\/\-](\d{1,2})[\/\-](\d{4})` with
`strptime(f"{g1}/{g2}/{g3}", "%m/%d/%Y")`. -/
def tryDatePattern1 (cs : List Char) : Option String :=
  (searchA (matchNumericDate [2, 1] [2, 1] [4]) cs).bind (fun g =>
    let m := digitsToNat g.1
    let d := digitsToNat g.2.1
    let y := digitsToNat g.2.2
    if validDate y m d then some (isoFormat y m d) else none)

/-- Pattern 2: `(\d{1,2})[\/\-](\d{1,2})[\/\-](\d{2})` with format
`%m/%d/%y`. -/
def tryDatePattern2 (cs : List Char) : Option String :=
  (searchA (matchNumericDate [2, 1] [2, 1] [2]) cs).bind (fun g =>
    let m := digitsToNat g.1
    let d := digitsToNat g.2.1
    let y := expandTwoDigitYear (digitsToNat g.2.2)
    if validDate y m d then some (isoFormat y m d) else none)

/-- Pattern 3: `(\d{4})[\/\-](\d{1,2})[\/\-](\d{1,2})` with format
`%Y/%m/%d`. -/
def tryDatePattern3 (cs : List Char) : Option String :=
  (searchA (matchNumericDate [4] [2, 1] [2, 1]) cs).bind (fun g =>
    let y := digitsToNat g.1
    let m := digitsToNat g.2.1
    let d := digitsToNat g.2.2
    if validDate y m d then some (isoFormat y m d) else none)

/-- Pattern 4: `(\w+)\s+(\d{1,2}),?\s+(\d{4})` with
`strptime(match.group(0), "%B %d, %Y")` — the literal comma in the format
must be present in the matched text or `strptime` raises. -/
def tryDatePattern4 (cs : List Char) : Option String :=
  (searchA matchMonthDayYear cs).bind (fun g =>
    let d := digitsToNat g.2.1
    let y := digitsToNat g.2.2.2
    if g.2.2.1 then
      (monthFromName g.1).bind (fun m =>
        if validDate y m d then some (isoFormat y m d) else none)
    else none)

/-- Pattern 5: `(\d{1,2})\s+(\w+)\s+(\d{4})` with format `%d %B %Y`. -/
def tryDatePattern5 (cs : List Char) : Option String :=
  (searchA matchDayMonthYear cs).bind (fun g =>
    let d := digitsToNat g.1
    let y := digitsToNat g.2.2
    (monthFromName g.2.1).bind (fun m =>
      if validDate y m d then some (isoFormat y m d) else none))

/-- `PDFParser._parse_date`: a total function — a pattern whose `strptime`
raises `ValueError` is skipped (`continue`), and when nothing matches the raw
(stripped) input is preserved with `iso = None`; no exception escapes. -/
def parse_date (date_str : String) : NormalizedDate :=
  if date_str = "" then ⟨none, none⟩
  else
    let raw := pyStrip date_str
    let cs := raw.data
    match tryDatePattern1 cs with
    | some iso => ⟨some raw, some iso⟩
    | none =>
      match tryDatePattern2 cs with
      | some iso => ⟨some raw, some iso⟩
      | none =>
        match tryDatePattern3 cs with
        | some iso => ⟨some raw, some iso⟩
        | none =>
          match tryDatePattern4 cs with
          | some iso => ⟨some raw, some iso⟩
          | none =>
            match tryDatePattern5 cs with
            | some iso => ⟨some raw, some iso⟩
            | none => ⟨some raw, none⟩

/-- C9: the date normalizer maps `"03/15/2024"` and `"March 15, 2024"` to ISO
`"2024-03-15"`, and returns `iso = None` with the raw input preserved on
`"not a date"` (and never an exception — `parse_date` is total). -/
theorem parse_date_roundtrip :
    parse_date "03/15/2024" = ⟨some "03/15/2024", some "2024-03-15"⟩ ∧
    parse_date "March 15, 2024" = ⟨some "March 15, 2024", some "2024-03-15"⟩ ∧
    parse_date "not a date" = ⟨some "not a date", none⟩ := by decide

/-! ## Coverage-type extraction: `PDFParser._extract_metadata`, lines 333-347

The coverage section tries six regex patterns in order and, on the first
match, stores `pattern.lower().replace('\\s+', '-').replace('?', '')` as
`coverage_type`.  The matchers below embed the regexes under `re.IGNORECASE`;
maximal-run matching of `\s+`/`\s*` is equivalent to regex backtracking here
because each run is followed by a letter. -/

/-- Case-insensitive literal match (ASCII lowering, as `re.IGNORECASE`). -/
def litCIAux : List Char → List Char → Option (List Char)
  | [], cs => some cs
  | _ :: _, [] => none
  | p :: ps, c :: cs => if c.toLower = p.toLower then litCIAux ps cs else none

def litCI (w : String) (cs : List Char) : Option (List Char) :=
  litCIAux w.data cs

/-- `\s+`. -/
def wsPlus (cs : List Char) : Option (List Char) :=
  match cs with
  | c :: rest => if isPySpace c then some (rest.dropWhile isPySpace) else none
  | [] => none

/-- `\s*`. -/
def wsStar (cs : List Char) : Option (List Char) :=
  some (cs.dropWhile isPySpace)

/-- `s?` (case-insensitive): the optional letter is consumed when present;
committing is equivalent to backtracking here because the following atoms
cannot match the letter. -/
def optCharCI (ch : Char) (cs : List Char) : Option (List Char) :=
  match cs with
  | c :: rest => if c.toLower = ch.toLower then some rest else some (c :: rest)
  | [] => some []

/-- `re.search` for a boolean matcher. -/
def searchB (matchAt : List Char → Bool) : List Char → Bool
  | [] => matchAt []
  | c :: t => matchAt (c :: t) || searchB matchAt t

/-- `General\s+Liability`. -/
def reGeneralLiability (s : String) : Bool :=
  searchB (fun cs => (litCI "General" cs >>= wsPlus >>= litCI "Liability").isSome)
    s.data

/-- `Property\s+Insurance`. -/
def rePropertyInsurance (s : String) : Bool :=
  searchB (fun cs => (litCI "Property" cs >>= wsPlus >>= litCI "Insurance").isSome)
    s.data

/-- `Umbrella\s+(?:Coverage|Insurance)`. -/
def reUmbrella (s : String) : Bool :=
  searchB (fun cs =>
    ((litCI "Umbrella" cs >>= wsPlus).bind (fun r =>
      match litCI "Coverage" r with
      | some r2 => some r2
      | none => litCI "Insurance" r)).isSome) s.data

/-- `Flood\s+Insurance`. -/
def reFlood (s : String) : Bool :=
  searchB (fun cs => (litCI "Flood" cs >>= wsPlus >>= litCI "Insurance").isSome)
    s.data

/-- `Earthquake\s+Coverage`. -/
def reEarthquake (s : String) : Bool :=
  searchB (fun cs => (litCI "Earthquake" cs >>= wsPlus >>= litCI "Coverage").isSome)
    s.data

/-- `Workers?\s*Compensation`. -/
def reWorkersComp (s : String) : Bool :=
  searchB (fun cs =>
    (litCI "Worker" cs >>= optCharCI 's' >>= wsStar >>= litCI "Compensation").isSome)
    s.data

/-- `pattern.lower().replace('\\s+', '-')` — replace every occurrence of the
three-character substring backslash-s-plus by a hyphen, scanning left to
right. -/
def slugReplaceAux : List Char → List Char
  | '\\' :: 's' :: '+' :: rest => '-' :: slugReplaceAux rest
  | c :: rest => c :: slugReplaceAux rest
  | [] => []

/-- `pattern.lower().replace('\\s+', '-').replace('?', '')`. -/
def coverageSlug (pat : String) : String :=
  ⟨(slugReplaceAux (lowerChars pat.data)).filter (fun c => c ≠ '?')⟩

/-- The coverage pattern table of `_extract_metadata`, in source order, each
with its regex source string and its matcher. -/
def coveragePatterns : List (String × (String → Bool)) :=
  [("General\\s+Liability", reGeneralLiability),
   ("Property\\s+Insurance", rePropertyInsurance),
   ("Umbrella\\s+(?:Coverage|Insurance)", reUmbrella),
   ("Flood\\s+Insurance", reFlood),
   ("Earthquake\\s+Coverage", reEarthquake),
   ("Workers?\\s*Compensation", reWorkersComp)]

/-- The `coverage_type` value `_extract_metadata` stores (absent when no
pattern matches). -/
def extractCoverageType (text : String) : Option String :=
  (coveragePatterns.find? (fun p => p.2 text)).map (fun p => coverageSlug p.1)

/-- C10: any text matching the umbrella pattern but neither of the two
earlier coverage patterns gets `coverage_type =
"umbrella-(:coverage|insurance)"` — the lowercased regex source with `\s+`
replaced by `-` and `?` deleted, which keeps the `(:...|...)` regex syntax in
the slug. -/
theorem umbrella_slug_keeps_regex_syntax (t : String)
    (hu : reUmbrella t = true) (hg : reGeneralLiability t = false)
    (hp : rePropertyInsurance t = false) :
    extractCoverageType t = some "umbrella-(:coverage|insurance)" := by
  unfold extractCoverageType coveragePatterns
  simp only [List.find?, hu, hg, hp]
  rfl

/-- Witness for C10 at the concrete text `"Umbrella Coverage"`. -/
theorem umbrella_slug_keeps_regex_syntax_witness :
    extractCoverageType "Umbrella Coverage" =
      some "umbrella-(:coverage|insurance)" :=
  umbrella_slug_keeps_regex_syntax "Umbrella Coverage"
    (by decide) (by decide) (by decide)

end Insurancify
